import Mathlib

/-!
Verification of the execution-pipeline core of a MongoDB driver against its
natural-language specification.  The definitions below are a shallow embedding
of the TypeScript sources:

* `BufferPool` / `List` primitives (utils source, `BufferPool.append`,
  `BufferPool.read`, `BufferPool.getInt32`),
* the state-transition guard (`makeStateMachine`),
* the endpoint parser (`HostAddress` constructor),
* the staged execution pipeline middleware (`withSession`, `withRetryability`,
  `runCommand` from the operation-execution source).

Node `Buffer` values are modelled as lists of bytes; the circular
doubly-linked `List` container is modelled by its observable contents,
a Lean `List` whose head corresponds to the node after the sentinel head
(`push` appends at the tail, `shift` removes at the head, `unshift` inserts
at the head, `first` peeks at the head).  JavaScript exceptions are modelled
with `Except` or explicit error components in result records.
-/

/-- A byte as stored in a Node.js `Buffer`. -/
abbrev Byte := Fin 256

/-- A Node.js `Buffer`: a finite sequence of bytes. -/
abbrev Buf := List Byte

/-- Total number of bytes spread over a list of chunks. -/
def sumLen (bufs : List Buf) : Nat := (bufs.map List.length).sum

/-- Embedding of `class BufferPool`: an ordered sequence of byte chunks
(`buffers`, front of the Lean list = head of the linked list) plus the running
total byte length (`totalByteLength`). -/
structure BufferPool where
  buffers : List Buf
  totalByteLength : Nat
deriving DecidableEq, Repr

/-- The `BufferPool` constructor: empty list of buffers, zero length. -/
def BufferPool.mkEmpty : BufferPool := ⟨[], 0⟩

/-- Embedding of `append(buffer)`: `this.buffers.push(buffer); this.totalByteLength += buffer.length;`. -/
def BufferPool.append (p : BufferPool) (buffer : Buf) : BufferPool :=
  ⟨p.buffers ++ [buffer], p.totalByteLength + buffer.length⟩

/-- Appending a whole sequence of chunks in order. -/
def BufferPool.appendAll (p : BufferPool) (chunks : List Buf) : BufferPool :=
  chunks.foldl BufferPool.append p

/-- The loop body of `BufferPool.read`: repeatedly `shift` a chunk, copy
`bytesReadable = min(bytesRemaining, buffer.byteLength)` bytes into the result,
and `unshift` the unconsumed remainder of a partially used chunk.  Returns the
bytes copied and the remaining chunk list.  The loop stops when `bytesRead`
reaches `size` (first pattern) or `shift` returns `null` (second pattern). -/
def readLoop (bufs : List Buf) (size : Nat) : Buf × List Buf :=
  match bufs, size with
  | bufs, 0 => ([], bufs)
  | [], _ + 1 => ([], [])
  | buffer :: rest, r + 1 =>
    let bytesReadable := min (r + 1) buffer.length
    let bytes := buffer.take bytesReadable
    if bytesReadable < buffer.length then
      (bytes, buffer.drop bytesReadable :: rest)
    else
      let res := readLoop rest (r + 1 - bytesReadable)
      (bytes ++ res.1, res.2)

/-- The body of `read(size)` after the negative-size check: an oversized
request returns an empty buffer and leaves the pool unchanged, otherwise the
chunk-walking loop runs and `totalByteLength` is decremented by exactly the
bytes consumed.  (The source allocates the result with `allocUnsafe(size)`;
under the pool invariant the loop fills all `size` bytes, which is the list
returned here.) -/
def BufferPool.readUnchecked (p : BufferPool) (size : Nat) : Buf × BufferPool :=
  if size > p.totalByteLength then
    ([], p)
  else
    let res := readLoop p.buffers size
    (res.1, ⟨res.2, p.totalByteLength - res.1.length⟩)

/-- Error raised by `read` on a negative size (`MongoInvalidArgumentError`). -/
inductive ReadErr where
  | invalidArgument (msg : String)
deriving DecidableEq, Repr

/-- Embedding of `read(size)`: throws `MongoInvalidArgumentError` when `size < 0`
(the `typeof size !== 'number'` disjunct is unrepresentable in a typed
embedding), otherwise runs the checked body. -/
def BufferPool.read (p : BufferPool) (size : Int) : Except ReadErr (Buf × BufferPool) :=
  if size < 0 then
    .error (.invalidArgument "Argument size must be a non-negative number")
  else
    .ok (p.readUnchecked size.toNat)

/-- Embedding of `Buffer.prototype.readInt32LE(0)`: the signed little-endian 32-bit integer
formed by the first four bytes.  (Out-of-range defaults never fire at the call
sites, which all guarantee at least four bytes.) -/
def readInt32LE (b : Buf) : Int :=
  let u := (b.getD 0 0).val + 256 * (b.getD 1 0).val + 65536 * (b.getD 2 0).val +
    16777216 * (b.getD 3 0).val
  if u < 2147483648 then (u : Int) else (u : Int) - 4294967296

/-- Embedding of `getInt32()`: returns `null` with fewer than 4 buffered bytes; reads the
first chunk directly when it holds at least 4 bytes; otherwise consumes 4
bytes with `read` and reinserts them at the head (`totalByteLength += 4`
followed by `unshift`).  Returns the value (or `none`) and the pool state
after the call. -/
def BufferPool.getInt32 (p : BufferPool) : Option Int × BufferPool :=
  if p.totalByteLength < 4 then
    (none, p)
  else
    match p.buffers.head? with
    | some firstBuffer =>
      if 4 ≤ firstBuffer.length then
        (some (readInt32LE firstBuffer), p)
      else
        let res := p.readUnchecked 4
        (some (readInt32LE res.1), ⟨res.1 :: res.2.buffers, res.2.totalByteLength + 4⟩)
    | none =>
      let res := p.readUnchecked 4
      (some (readInt32LE res.1), ⟨res.1 :: res.2.buffers, res.2.totalByteLength + 4⟩)

/-- The pool invariant: the stored total equals the sum of the chunk lengths. -/
def BufferPool.wf (p : BufferPool) : Prop := p.totalByteLength = sumLen p.buffers

-- ### State transition guard (`makeStateMachine`)

/-- The transition table handed to `makeStateMachine`: mapping from current
state to the array of legal next states (`stateTable[state]`, `undefined` when
the state is not a key). -/
abbrev StateTable := List (String × List String)

/-- JavaScript property lookup `stateTable[state]`. -/
def lookupTable (table : StateTable) (state : String) : Option (List String) :=
  (table.find? (fun kv => kv.1 == state)).map (fun kv => kv.2)

/-- The mutable target of a transition (`target.s.state`) together with the log
of `stateChanged` notifications it has emitted (`target.emit('stateChanged',
old, new)`). -/
structure ObjectWithState where
  state : String
  stateChangedEvents : List (String × String)
deriving DecidableEq, Repr

/-- The `MongoRuntimeError` thrown on an illegal transition: its message names
the current state, the requested state and the legal set. -/
structure TransitionError where
  fromState : String
  toState : String
  legalStates : List String
deriving DecidableEq, Repr

/-- The guard produced by `makeStateMachine(stateTable)`: looks up the legal
set for the target's current state; when an entry exists and the requested
state is not in it (`legalStates.indexOf(newState) < 0`), throws and leaves
the target untouched; otherwise emits `stateChanged (old, new)` and commits
`target.s.state = newState`.  (An absent entry — `undefined`, falsy — skips
the check; an empty array is truthy and rejects everything.) -/
def stateTransition (stateTable : StateTable) (target : ObjectWithState)
    (newState : String) : ObjectWithState × Option TransitionError :=
  match lookupTable stateTable target.state with
  | some legalStates =>
    if legalStates.contains newState then
      ({ state := newState,
         stateChangedEvents := target.stateChangedEvents ++ [(target.state, newState)] }, none)
    else
      (target, some ⟨target.state, newState, legalStates⟩)
  | none =>
    ({ state := newState,
       stateChangedEvents := target.stateChangedEvents ++ [(target.state, newState)] }, none)

-- ### HostAddress

/-- Result of the `HostAddress` constructor: canonical host/port, or a socket
path; immutable after construction (`Object.freeze`). -/
structure HostAddress where
  host : Option String
  port : Option Nat
  socketPath : Option String
  isIPv6 : Bool
deriving DecidableEq, Repr

/-- Errors thrown while constructing a `HostAddress`: `MongoRuntimeError`
("Unable to parse ... with URL") when the platform URL constructor throws,
`MongoParseError` for a literal zero port, and an uncaught `URIError` from
`decodeURIComponent` on a malformed percent escape. -/
inductive HostAddressError where
  | runtimeError (msg : String)
  | parseError (msg : String)
  | uriError (msg : String)
deriving DecidableEq, Repr

/-- Embedding of `hostString.split(' ').join('%20')`: splitting on a single-character
separator and joining with `%20` replaces every space with those three
characters. -/
def escapeSpacesAux : List Char → List Char
  | [] => []
  | c :: rest =>
    if c = ' ' then '%' :: '2' :: '0' :: escapeSpacesAux rest
    else c :: escapeSpacesAux rest

def escapeSpaces (s : String) : String := ⟨escapeSpacesAux s.data⟩

def strEndsWith (s suff : String) : Bool :=
  s.data.reverse.take suff.data.length == suff.data.reverse

def strStartsWith (s pre : String) : Bool :=
  s.data.take pre.data.length == pre.data

/-- Value of a hexadecimal digit, as accepted by `decodeURIComponent`. -/
def hexVal (c : Char) : Option Nat :=
  if '0' ≤ c ∧ c ≤ '9' then some (c.toNat - 48)
  else if 'a' ≤ c ∧ c ≤ 'f' then some (c.toNat - 87)
  else if 'A' ≤ c ∧ c ≤ 'F' then some (c.toNat - 55)
  else none

/-- Modelled from the platform `decodeURIComponent` restricted to single-byte
escapes (the inputs of interest are ASCII): each `%hh` becomes the character
with code `hh`, a malformed escape throws `URIError` (`none`). -/
def percentDecodeAux : List Char → Option (List Char)
  | [] => some []
  | '%' :: rest =>
    match rest with
    | a :: b :: rest2 =>
      match hexVal a, hexVal b with
      | some va, some vb => (percentDecodeAux rest2).map (fun r => Char.ofNat (16 * va + vb) :: r)
      | _, _ => none
    | _ => none
  | c :: rest => (percentDecodeAux rest).map (fun r => c :: r)

def decodeURIComponent (s : String) : Option String :=
  (percentDecodeAux s.data).map String.mk

/-- Embedding of `String.prototype.toLowerCase` on the ASCII inputs of interest. -/
def toLowerStr (s : String) : String := ⟨s.data.map Char.toLower⟩

/-- Numeric value of a string of decimal digits. -/
def digitsVal (l : List Char) : Nat := l.foldl (fun acc c => 10 * acc + (c.toNat - 48)) 0

/-- Scans up to and including the closing `]` of a bracketed IPv6 host,
returning the host characters (with the `]`) and the remainder. -/
def upToRBracket : List Char → Option (List Char × List Char)
  | [] => none
  | c :: rest =>
    if c = ']' then some ([']'], rest)
    else
      match upToRBracket rest with
      | some (h, r) => some (c :: h, r)
      | none => none

/-- Modelled from the platform WHATWG URL parser (`new URL('iLoveJS://' +
escapedHost)`) restricted to the authority-only inputs the constructor builds:
for a non-special scheme the host is opaque (case and percent escapes are
preserved), a bracketed IPv6 host keeps its brackets in `url.hostname`, and
the text after the first `:` outside brackets is the port.  Returns
`(hostname-characters, port-characters)` or `none` when the URL constructor
throws (unmatched bracket, text after `]` that is not a port). -/
def splitHostPort : List Char → Option (List Char × List Char)
  | '[' :: rest =>
    match upToRBracket rest with
    | some (h, after) =>
      match after with
      | [] => some ('[' :: h, [])
      | ':' :: port => some ('[' :: h, port)
      | _ => none
    | none => none
  | l => some (l.takeWhile (fun c => c ≠ ':'), (l.dropWhile (fun c => c ≠ ':')).drop 1)

/-- Modelled from the WHATWG port parser: the port is empty or decimal digits
with value at most 65535 (else the URL constructor throws), and `url.port` is
the value serialized without leading zeros. -/
def portFromChars (l : List Char) : Option String :=
  if l.isEmpty then some ""
  else if l.all Char.isDigit then
    let v := digitsVal l
    if v ≤ 65535 then some (toString v) else none
  else none

/-- The pair `(url.hostname, url.port)` of `new URL('iLoveJS://' + s)`, or `none` when
that constructor throws. -/
def urlHostPort (s : String) : Option (String × String) :=
  match splitHostPort s.data with
  | none => none
  | some (hostChars, portChars) =>
    match portFromChars portChars with
    | none => none
    | some portStr => some (String.mk hostChars, portStr)

/-- Embedding of `Number.parseInt(s, 10)` restricted to the all-digit strings the URL model
guarantees for a non-empty `url.port` (`none` models `NaN`, unreachable at the
call site below). -/
def parseIntBase10 (s : String) : Option Nat :=
  if !s.data.isEmpty && s.data.all Char.isDigit then some (digitsVal s.data) else none

/-- The tail of the `HostAddress` constructor once hostname normalization is
done: `this.host = normalized.toLowerCase()`; `url.port` is a string, so the
dead `typeof port === 'number'` branch is omitted, a non-empty port string is
parsed with `parseInt` and an absent port defaults to 27017; a zero port
throws `MongoParseError`. -/
def finishHost (normalized : String) (ipv6 : Bool) (port : String) :
    Except HostAddressError HostAddress :=
  let host := toLowerStr normalized
  let portNum : Nat := if port != "" then (parseIntBase10 port).getD 0 else 27017
  if portNum = 0 then .error (.parseError "Invalid port (zero) with hostname")
  else .ok ⟨some host, some portNum, none, ipv6⟩

/-- The `HostAddress` constructor: escape spaces; a string ending in `.sock`
is a decoded domain-socket path with all other fields absent; otherwise parse
`iLoveJS://escapedHost` with the URL model, percent-decode and lower-case the
hostname, strip IPv6 brackets (`substring(1, hostname.length - 1)`, note the
source uses the pre-decoding `hostname.length`) setting the IPv6 flag, and
resolve the port. -/
def hostAddress (hostString : String) : Except HostAddressError HostAddress :=
  let escapedHost := escapeSpaces hostString
  if strEndsWith escapedHost ".sock" then
    match decodeURIComponent escapedHost with
    | some path => .ok ⟨none, none, some path, false⟩
    | none => .error (.uriError escapedHost)
  else
    match urlHostPort escapedHost with
    | none => .error (.runtimeError ("Unable to parse " ++ escapedHost ++ " with URL"))
    | some (hostname, port) =>
      match decodeURIComponent hostname with
      | none => .error (.uriError hostname)
      | some decoded =>
        let normalized := toLowerStr decoded
        if strStartsWith normalized "[" && strEndsWith normalized "]" then
          finishHost ⟨(normalized.data.drop 1).take (hostname.data.length - 2)⟩ true port
        else
          finishHost normalized false port

deriving instance DecidableEq for Except

-- ### Execution pipeline: errors, sessions, operations, servers

/-- A JavaScript error value as seen by the retry logic: either a
`MongoError` (with optional numeric `code`, error labels, and whether it is a
`MongoNetworkError` subclass), or any other thrown value (`instanceof
MongoError` false).  The `id` field distinguishes distinct error objects with
identical attributes so that "surfaced unchanged" is meaningful. -/
inductive MErr where
  | mongo (code : Option Int) (labels : List String) (isNetwork : Bool) (id : Nat)
  | other (id : Nat)
deriving DecidableEq, Repr

/-- Whether `err instanceof MongoError`. -/
def MErr.isMongoError : MErr → Bool
  | .mongo _ _ _ _ => true
  | .other _ => false

/-- Whether `err instanceof MongoNetworkError` (a `MongoError` subclass). -/
def MErr.isNetworkError : MErr → Bool
  | .mongo _ _ isNetwork _ => isNetwork
  | .other _ => false

/-- The numeric `err.code` (only a `MongoError` carries one). -/
def MErr.code : MErr → Option Int
  | .mongo code _ _ _ => code
  | .other _ => none

/-- Embedding of `MongoError.prototype.hasErrorLabel`: only a `MongoError` carries error
labels. -/
def MErr.hasErrorLabel : MErr → String → Bool
  | .mongo _ labels _ _, label => labels.contains label
  | .other _, _ => false

/-- The constant `MONGODB_ERROR_CODES.IllegalOperation`, the fixed MMAPv1 retry-writes
code (constant imported from the error module, not among the sources;
value 20 per the server error-code table). -/
def MMAPv1_RETRY_WRITES_ERROR_CODE : Int := 20

/-- The label `MongoErrorLabel.NoWritesPerformed`. -/
def NoWritesPerformedLabel : String := "NoWritesPerformed"

/-- Modelled from the spec: the retryable-write marker check
(`isRetryableWriteError` from the error module, not among the sources); the
spec glossary describes the marker as a label attached to the error. -/
def isRetryableWriteError (e : MErr) : Bool := e.hasErrorLabel "RetryableWriteError"

/-- Modelled from the spec: the retryable-read marker check
(`isRetryableReadError` from the error module, not among the sources). -/
def isRetryableReadError (e : MErr) : Bool := e.hasErrorLabel "RetryableReadError"

/-- A `ClientSession` as the pipeline observes it. -/
structure Session where
  hasEnded : Bool
  snapshotEnabled : Bool
  explicit : Bool
  owner : Option Nat
  inTransaction : Bool
  isPinned : Bool
  transactionIsCommitted : Bool
  txnNumber : Nat
deriving DecidableEq, Repr

/-- Embedding of `session.incrementTransactionNumber()`. -/
def Session.incrementTransactionNumber (s : Session) : Session :=
  { s with txnNumber := s.txnNumber + 1 }

/-- Embedding of `session.unpin(...)` (the force/forceClear variants agree on the session
state the pipeline observes). -/
def Session.unpin (s : Session) : Session := { s with isPinned := false }

/-- Modelled from the spec: `client.startSession({ owner, explicit: false })`
(sessions module, not among the sources) creates a fresh implicit session
tagged with the ownership token: not ended, no snapshot, not in a
transaction, not pinned. -/
def startSession (owner : Nat) : Session :=
  { hasEnded := false, snapshotEnabled := false, explicit := false, owner := some owner,
    inTransaction := false, isPinned := false, transactionIsCommitted := false, txnNumber := 0 }

/-- The aspects the execution code consults (`Aspect` from the operation
module). -/
inductive Aspect where
  | READ_OPERATION
  | WRITE_OPERATION
  | RETRYABLE
  | CURSOR_CREATING
  | MUST_SELECT_SAME_SERVER
deriving DecidableEq, Repr

/-- An operation descriptor as the retry stage observes it. -/
structure Operation where
  readAspect : Bool
  writeAspect : Bool
  retryableAspect : Bool
  cursorCreatingAspect : Bool
  mustSelectSameServerAspect : Bool
  canRetryRead : Bool
  canRetryWrite : Bool
deriving DecidableEq, Repr

/-- Embedding of `operation.hasAspect(aspect)`. -/
def Operation.hasAspect (op : Operation) : Aspect → Bool
  | .READ_OPERATION => op.readAspect
  | .WRITE_OPERATION => op.writeAspect
  | .RETRYABLE => op.retryableAspect
  | .CURSOR_CREATING => op.cursorCreatingAspect
  | .MUST_SELECT_SAME_SERVER => op.mustSelectSameServerAspect

/-- The server fields consulted by `supportsRetryableWrites`. -/
structure ServerDescription where
  logicalSessionTimeoutMinutes : Option Int
  type : String
deriving DecidableEq, Repr

structure Server where
  loadBalanced : Bool
  description : ServerDescription
deriving DecidableEq, Repr

/-- Embedding of `supportsRetryableWrites(server?)` from the utils source: `false` for a
missing server; load-balanced topologies always support retryable writes;
otherwise sessions must be supported (`logicalSessionTimeoutMinutes != null`)
and the server must not be a standalone. -/
def supportsRetryableWrites : Option Server → Bool
  | none => false
  | some server =>
    if server.loadBalanced then true
    else
      match server.description.logicalSessionTimeoutMinutes with
      | some _ => if server.description.type != "Standalone" then true else false
      | none => false

/-- The errors the pipeline stages can raise, beyond re-raising an operation
error: construction sites in `withSession` / `withRetryability`. -/
inductive DriverError where
  | opError (e : MErr)
  | expiredSession
  | snapshotCompatibility
  | topologySessionCompatibility
  | transactionReadPref
  | mmapv1Rewritten (original : MErr)
  | unexpectedServerResponse
  | runtimeTopologyNull
deriving DecidableEq, Repr

-- ### `withRetryability` middleware

/-- The inputs `withRetryability` reads from the pipeline context and its
collaborators.  `attempt n` is the outcome of the `(n+1)`-th invocation of
`next()` (the downstream `runCommand` stage, i.e.
`operation.executeAsync(server, session)`); `reselect` is the outcome of the
in-catch `topology.selectServerAsync(selector, { session })`. -/
structure RetryInput where
  topologyPresent : Bool
  retryReads : Bool
  retryWrites : Bool
  session : Option Session
  server : Option Server
  inTransaction : Bool
  operation : Operation
  reselect : Except MErr Server
  attempt : Nat → Except MErr Nat

/-- What a run of `withRetryability` produces: the value returned to the
caller or the error thrown, the number of `next()` invocations, the final
session state, and whether `operation.options.willRetryWrite` was set. -/
structure RetryOutput where
  result : Except DriverError Nat
  attempts : Nat
  session : Option Session
  willRetryWriteOptionSet : Bool
deriving Repr

/-- Embedding of `withRetryability` (composed with the terminal `runCommand`
stage as `next`).  Mirrors the source control flow: topology-null check;
early exit when there is no session or the operation lacks the RETRYABLE
aspect; eligibility flags; marking `willRetryWrite` and advancing the
transaction number before the first attempt; and the catch block with the
MMAPv1 rewrite, the marker filters, the cursor unpin, re-selection, and the
single re-invocation.  Note that after a *successful* re-invocation the inner
`try` completes and control falls through to the trailing
`throw operationError`. -/
def withRetryability (inp : RetryInput) : RetryOutput :=
  if !inp.topologyPresent then
    ⟨.error .runtimeTopologyNull, 0, inp.session, false⟩
  else
    match inp.session with
    | none =>
      -- no session also means it is not retryable, early exit
      ⟨(inp.attempt 0).mapError .opError, 1, none, false⟩
    | some session =>
      if !(inp.operation.hasAspect .RETRYABLE) then
        ⟨(inp.attempt 0).mapError .opError, 1, some session, false⟩
      else
        let willRetryRead :=
          inp.retryReads && !inp.inTransaction && inp.operation.canRetryRead
        let willRetryWrite :=
          inp.retryWrites && !inp.inTransaction && supportsRetryableWrites inp.server &&
            inp.operation.canRetryWrite
        let hasReadAspect := inp.operation.hasAspect .READ_OPERATION
        let hasWriteAspect := inp.operation.hasAspect .WRITE_OPERATION
        let willRetry := (hasReadAspect && willRetryRead) || (hasWriteAspect && willRetryWrite)
        let optionSet := hasWriteAspect && willRetryWrite
        let session := if optionSet then session.incrementTransactionNumber else session
        match inp.attempt 0 with
        | .ok r => ⟨.ok r, 1, some session, optionSet⟩
        | .error operationError =>
          if willRetry && operationError.isMongoError then
            let isWriteOperation := inp.operation.hasAspect .WRITE_OPERATION
            let isReadOperation := inp.operation.hasAspect .READ_OPERATION
            if isWriteOperation && (operationError.code == some MMAPv1_RETRY_WRITES_ERROR_CODE) then
              ⟨.error (.mmapv1Rewritten operationError), 1, some session, optionSet⟩
            else if isWriteOperation && !isRetryableWriteError operationError then
              ⟨.error (.opError operationError), 1, some session, optionSet⟩
            else if isReadOperation && !isRetryableReadError operationError then
              ⟨.error (.opError operationError), 1, some session, optionSet⟩
            else
              let session :=
                if operationError.isNetworkError && session.isPinned &&
                    !session.inTransaction && inp.operation.hasAspect .CURSOR_CREATING then
                  session.unpin
                else session
              match inp.reselect with
              | .error selectionError =>
                ⟨.error (.opError selectionError), 1, some session, optionSet⟩
              | .ok server =>
                if isWriteOperation && !supportsRetryableWrites (some server) then
                  ⟨.error .unexpectedServerResponse, 1, some session, optionSet⟩
                else
                  match inp.attempt 1 with
                  | .ok _ =>
                    -- inner try succeeds; falls through to `throw operationError`
                    ⟨.error (.opError operationError), 2, some session, optionSet⟩
                  | .error retryError =>
                    if retryError.isMongoError &&
                        retryError.hasErrorLabel NoWritesPerformedLabel then
                      ⟨.error (.opError operationError), 2, some session, optionSet⟩
                    else
                      ⟨.error (.opError retryError), 2, some session, optionSet⟩
          else
            ⟨.error (.opError operationError), 1, some session, optionSet⟩

/-- A replica-set-style server that supports retryable writes. -/
def rsServer : Server := ⟨false, ⟨some 30, "RSPrimary"⟩⟩

/-- A write operation carrying the RETRYABLE and WRITE_OPERATION aspects. -/
def retryableWriteOp : Operation :=
  { readAspect := false, writeAspect := true, retryableAspect := true,
    cursorCreatingAspect := false, mustSelectSameServerAspect := false,
    canRetryRead := true, canRetryWrite := true }

/-- First-attempt error for the C1 run: a retry-eligible retryable-write
`MongoError`. -/
def c1Err : MErr := .mongo none ["RetryableWriteError"] false 0

/-- The C1 run: retry-eligible write, first attempt fails with `c1Err`,
re-selection succeeds, second attempt succeeds with value 42. -/
def c1Input : RetryInput :=
  { topologyPresent := true, retryReads := true, retryWrites := true,
    session := some (startSession 0), server := some rsServer, inTransaction := false,
    operation := retryableWriteOp, reselect := .ok rsServer,
    attempt := fun n => if n == 0 then .error c1Err else .ok 42 }

/-- First-attempt error for the C2 witness run. -/
def c2FirstErr : MErr := .mongo none ["RetryableWriteError"] false 1

/-- Second-attempt error for the C2 witness run, carrying the
no-writes-performed label. -/
def c2SecondErr : MErr := .mongo none ["NoWritesPerformed"] false 2

/-- The C2 witness run: retry-eligible write, both attempts fail, second
failure labelled NoWritesPerformed. -/
def c2Input : RetryInput :=
  { topologyPresent := true, retryReads := true, retryWrites := true,
    session := some (startSession 0), server := some rsServer, inTransaction := false,
    operation := retryableWriteOp, reselect := .ok rsServer,
    attempt := fun n => if n == 0 then .error c2FirstErr else .error c2SecondErr }

/-- First-attempt error for the C3 witness run: retryable, so the run
actually performs a retry while the transaction number stays advanced by
exactly one. -/
def c3Err : MErr := .mongo none ["RetryableWriteError"] false 3

/-- The C3 witness run. -/
def c3Input : RetryInput :=
  { topologyPresent := true, retryReads := true, retryWrites := true,
    session := some (startSession 5), server := some rsServer, inTransaction := false,
    operation := retryableWriteOp, reselect := .ok rsServer,
    attempt := fun n => if n == 0 then .error c3Err else .ok 7 }

-- ### `withSession` middleware

/-- The inputs `withSession` reads from the pipeline context and its
collaborators.  `supportCheckSelect` is the outcome of the
`selectServerAsync(primaryPreferred)` performed when
`shouldCheckForSessionSupport()` is true; `operationReadPrefIsPrimary` is
`none` when `operation.readPreference` is undefined (defaulting to primary)
and otherwise records whether it `equals(ReadPreference.primary)`;
`freshOwner` is the `Symbol()` minted for an implicit session; `inner` is the
outcome of `next()` (the rest of the pipeline); `endSessionFails` tells
whether `session.endSession()` rejects during cleanup. -/
structure SessionInput where
  shouldCheckForSessionSupport : Bool
  supportCheckSelect : Except MErr Unit
  hasSessionSupport : Bool
  supportsSnapshotReads : Bool
  operationSession : Option Session
  operationReadPrefIsPrimary : Option Bool
  bypassPinningCheck : Bool
  freshOwner : Nat
  inner : Except DriverError Nat
  endSessionFails : Bool

/-- What a run of `withSession` produces: the value returned or error
thrown, and whether the pipeline called `endSession()` on the session it
used. -/
structure SessionOutput where
  result : Except DriverError Nat
  sessionEnded : Bool
deriving DecidableEq, Repr

/-- The body of `withSession` from the read-preference resolution on
(line "const readPreference = ..."): the transaction/read-preference check,
the committed-transaction unpin, then `try { await next() } finally { if
(session?.owner != null && session.owner === owner)
await session.endSession().catch(() => null) }` — the session is ended
exactly when its owner token is the one this run minted, and an
`endSession` failure is swallowed. -/
def withSessionRun (inp : SessionInput) (session : Option Session) (owner : Option Nat) :
    SessionOutput :=
  let readPrefIsPrimary := inp.operationReadPrefIsPrimary.getD true
  let inTransaction := match session with
    | some s => s.inTransaction
    | none => false
  if inTransaction && !readPrefIsPrimary then
    ⟨.error .transactionReadPref, false⟩
  else
    let session := match session with
      | some s =>
        if s.isPinned && s.transactionIsCommitted && !inp.bypassPinningCheck then some s.unpin
        else some s
      | none => none
    let doEnd := match session with
      | some s =>
        match s.owner, owner with
        | some a, some b => a == b
        | _, _ => false
      | none => false
    ⟨inp.inner, doEnd⟩

/-- Embedding of `withSession`: the optional session-support server
selection, the implicit-session creation / expired-session /
snapshot-compatibility checks when the topology supports sessions, the
explicit-session error and implicit-session drop when it does not, then
`withSessionRun`. -/
def withSession (inp : SessionInput) : SessionOutput :=
  match (if inp.shouldCheckForSessionSupport then inp.supportCheckSelect else .ok ()) with
  | .error e => ⟨.error (.opError e), false⟩
  | .ok _ =>
    if inp.hasSessionSupport then
      match inp.operationSession with
      | none => withSessionRun inp (some (startSession inp.freshOwner)) (some inp.freshOwner)
      | some s =>
        if s.hasEnded then ⟨.error .expiredSession, false⟩
        else if s.snapshotEnabled && !inp.supportsSnapshotReads then
          ⟨.error .snapshotCompatibility, false⟩
        else withSessionRun inp (some s) none
    else
      match inp.operationSession with
      | some s =>
        if s.explicit then ⟨.error .topologySessionCompatibility, false⟩
        else withSessionRun inp none none
      | none => withSessionRun inp none none

/-- A run with no caller-supplied session on a session-supporting topology:
the pipeline creates the implicit session; `endSessionFails` is set to show
the cleanup error is suppressed. -/
def c4ImplicitInput : SessionInput :=
  { shouldCheckForSessionSupport := false, supportCheckSelect := .ok (),
    hasSessionSupport := true, supportsSnapshotReads := true, operationSession := none,
    operationReadPrefIsPrimary := none, bypassPinningCheck := false, freshOwner := 9,
    inner := .ok 11, endSessionFails := true }

/-- A caller-supplied explicit session (no owner token). -/
def c4ExplicitSession : Session :=
  { hasEnded := false, snapshotEnabled := false, explicit := true, owner := none,
    inTransaction := false, isPinned := false, transactionIsCommitted := false, txnNumber := 0 }

/-- The same run with the explicit session supplied and a failing inner
stage. -/
def c4ExplicitInput : SessionInput :=
  { c4ImplicitInput with
    operationSession := some c4ExplicitSession
    inner := Except.error DriverError.expiredSession }

-- ### Theorems

-- ### Lemmas about the buffer pool

theorem sumLen_cons (b : Buf) (bufs : List Buf) : sumLen (b :: bufs) = b.length + sumLen bufs := by
  simp [sumLen]

theorem readLoop_spec (bufs : List Buf) (size : Nat) (h : size ≤ sumLen bufs) :
    (readLoop bufs size).1 = (bufs.flatten).take size ∧
      (readLoop bufs size).2.flatten = (bufs.flatten).drop size := by
  induction bufs generalizing size with
  | nil =>
    have hz : size = 0 := by simpa [sumLen] using h
    subst hz
    simp [readLoop]
  | cons buffer rest ih =>
    match size with
    | 0 => simp [readLoop]
    | r + 1 =>
      rw [sumLen_cons] at h
      simp only [readLoop]
      split
      next hlt =>
        have hle : r + 1 ≤ buffer.length := by omega
        have hmin : min (r + 1) buffer.length = r + 1 := by omega
        rw [hmin]
        constructor
        · simp [List.take_append_eq_append_take, Nat.sub_eq_zero_of_le hle]
        · simp [List.drop_append_eq_append_drop, Nat.sub_eq_zero_of_le hle]
      next hlt =>
        have hge : buffer.length ≤ r + 1 := by omega
        have hmin : min (r + 1) buffer.length = buffer.length := by omega
        have hrec := ih (r + 1 - buffer.length) (by omega)
        rw [hmin]
        constructor
        · rw [List.take_length, hrec.1, List.flatten_cons, List.take_append_eq_append_take,
            List.take_of_length_le hge]
        · rw [hrec.2, List.flatten_cons, List.drop_append_eq_append_drop,
            List.drop_of_length_le hge, List.nil_append]

theorem readLoop_bytes_length (bufs : List Buf) (size : Nat) (h : size ≤ sumLen bufs) :
    (readLoop bufs size).1.length = size := by
  have hs := (readLoop_spec bufs size h).1
  rw [hs, List.length_take]
  have hlen : bufs.flatten.length = sumLen bufs := by
    simp [sumLen]
  omega

theorem appendAll_mkEmpty (chunks : List Buf) :
    BufferPool.appendAll BufferPool.mkEmpty chunks = ⟨chunks, sumLen chunks⟩ := by
  suffices h : ∀ p : BufferPool, BufferPool.appendAll p chunks =
      ⟨p.buffers ++ chunks, p.totalByteLength + sumLen chunks⟩ by
    simpa [BufferPool.mkEmpty] using h BufferPool.mkEmpty
  induction chunks with
  | nil => intro p; simp [BufferPool.appendAll, sumLen]
  | cons c cs ih =>
    intro p
    simp only [BufferPool.appendAll, List.foldl_cons] at *
    rw [ih]
    simp [BufferPool.append, sumLen_cons]
    omega

theorem readUnchecked_spec (p : BufferPool) (size : Nat) (hwf : p.wf)
    (h : size ≤ p.totalByteLength) :
    (p.readUnchecked size).1 = p.buffers.flatten.take size ∧
      (p.readUnchecked size).2.buffers.flatten = p.buffers.flatten.drop size ∧
      (p.readUnchecked size).2.totalByteLength = p.totalByteLength - size := by
  have hs : size ≤ sumLen p.buffers := hwf ▸ h
  have hspec := readLoop_spec p.buffers size hs
  have hlen := readLoop_bytes_length p.buffers size hs
  simp only [BufferPool.readUnchecked, if_neg (by omega : ¬ size > p.totalByteLength)]
  exact ⟨hspec.1, hspec.2, by rw [hlen]⟩

theorem sumLen_eq_length_flatten (bufs : List Buf) : sumLen bufs = bufs.flatten.length := by
  simp [sumLen]

theorem getD_take_of_lt (l : Buf) (k i : Nat) (hik : i < k) :
    (l.take k).getD i 0 = l.getD i 0 := by
  by_cases hl : i < l.length
  · have h1 : i < (l.take k).length := by
      simp only [List.length_take]
      omega
    rw [List.getD_eq_getElem _ _ h1, List.getD_eq_getElem _ _ hl]
    simp [List.getElem_take]
  · have h2 : l.length ≤ i := by omega
    rw [List.getD_eq_default _ _ h2, List.getD_eq_default]
    simp only [List.length_take]
    omega

theorem readInt32LE_take4 (l : Buf) : readInt32LE (l.take 4) = readInt32LE l := by
  unfold readInt32LE
  rw [getD_take_of_lt l 4 0 (by omega), getD_take_of_lt l 4 1 (by omega),
    getD_take_of_lt l 4 2 (by omega), getD_take_of_lt l 4 3 (by omega)]

theorem readInt32LE_append_left (l1 l2 : Buf) (h : 4 ≤ l1.length) :
    readInt32LE (l1 ++ l2) = readInt32LE l1 := by
  unfold readInt32LE
  rw [List.getD_append _ _ _ _ (by omega), List.getD_append _ _ _ _ (by omega),
    List.getD_append _ _ _ _ (by omega), List.getD_append _ _ _ _ (by omega)]

theorem readUnchecked_wf (p : BufferPool) (size : Nat) (hwf : p.wf)
    (h : size ≤ p.totalByteLength) : (p.readUnchecked size).2.wf := by
  obtain ⟨h1, h2, h3⟩ := readUnchecked_spec p size hwf h
  unfold BufferPool.wf
  rw [h3, sumLen_eq_length_flatten, h2, List.length_drop, ← sumLen_eq_length_flatten, ← hwf]

theorem read_split_general (p : BufferPool) (hwf : p.wf) (n : Nat)
    (h : n ≤ p.totalByteLength) :
    ∃ out1 out2 : Buf × BufferPool,
      p.read (n : Int) = .ok out1 ∧
        out1.2.read ((p.totalByteLength - n : Nat) : Int) = .ok out2 ∧
        out1.1 ++ out2.1 = p.buffers.flatten := by
  refine ⟨p.readUnchecked n, (p.readUnchecked n).2.readUnchecked (p.totalByteLength - n),
    ?_, ?_, ?_⟩
  · simp [BufferPool.read]
  · simp [BufferPool.read]
  · obtain ⟨a1, a2, a3⟩ := readUnchecked_spec p n hwf h
    have hwf1 := readUnchecked_wf p n hwf h
    obtain ⟨b1, b2, b3⟩ := readUnchecked_spec _ (p.totalByteLength - n) hwf1 (le_of_eq a3.symm)
    rw [a1, b1, a2]
    have hle2 : (List.drop n p.buffers.flatten).length ≤ p.totalByteLength - n := by
      rw [List.length_drop, ← sumLen_eq_length_flatten, ← hwf]
    rw [List.take_of_length_le hle2]
    exact List.take_append_drop n p.buffers.flatten

/-- Claim C6: for every sequence of chunks appended to a `BufferPool` with total
byte length `total`, and every `n` with `0 <= n <= total`, `read(n)` followed by
`read(total - n)` returns two buffers whose concatenation equals the
concatenation of all appended chunks in order. -/
theorem c6_read_split_reconstructs (chunks : List Buf) (n : Nat)
    (h : n ≤ sumLen chunks) :
    ∃ out1 out2 : Buf × BufferPool,
      (BufferPool.appendAll BufferPool.mkEmpty chunks).read (n : Int) = .ok out1 ∧
        out1.2.read ((sumLen chunks - n : Nat) : Int) = .ok out2 ∧
        out1.1 ++ out2.1 = chunks.flatten := by
  rw [appendAll_mkEmpty]
  exact read_split_general ⟨chunks, sumLen chunks⟩ rfl n h

theorem c6_read_split_reconstructs_witness :
    (2 ≤ sumLen [[(1 : Byte), 2], [3]]) ∧
      (∃ out1 out2 : Buf × BufferPool,
        (BufferPool.appendAll BufferPool.mkEmpty [[(1 : Byte), 2], [3]]).read ((2 : Nat) : Int) =
            .ok out1 ∧
          out1.2.read ((sumLen [[(1 : Byte), 2], [3]] - 2 : Nat) : Int) = .ok out2 ∧
          out1.1 ++ out2.1 = ([[(1 : Byte), 2], [3]] : List Buf).flatten) :=
  ⟨by decide, c6_read_split_reconstructs [[(1 : Byte), 2], [3]] 2 (by decide)⟩

/-- Claim C7: for every `BufferPool` state (satisfying the pool invariant) with
at least 4 buffered bytes, `getInt32` returns the little-endian 32-bit integer
formed by the first 4 buffered bytes and leaves the pool's total length and the
concatenation of its buffered bytes unchanged (including when the 4 bytes span
chunk boundaries); with fewer than 4 bytes buffered it returns `null` and
changes nothing. -/
theorem c7_getInt32_peek_frame (p : BufferPool) (hwf : p.wf) :
    (4 ≤ p.totalByteLength →
      (p.getInt32).1 = some (readInt32LE (p.buffers.flatten.take 4)) ∧
        (p.getInt32).2.totalByteLength = p.totalByteLength ∧
        (p.getInt32).2.buffers.flatten = p.buffers.flatten) ∧
    (p.totalByteLength < 4 → p.getInt32 = (none, p)) := by
  constructor
  · intro h4
    have hspec := readUnchecked_spec p 4 hwf h4
    unfold BufferPool.getInt32
    rw [if_neg (by omega)]
    rcases hb : p.buffers with _ | ⟨firstBuffer, rest⟩
    · exfalso
      rw [BufferPool.wf, hb] at hwf
      simp [sumLen] at hwf
      omega
    · rw [hb] at hspec
      simp only [hb, List.head?_cons]
      split
      next hfb =>
        refine ⟨?_, rfl, by rw [hb]⟩
        have htk : (firstBuffer :: rest).flatten.take 4 = firstBuffer.take 4 := by
          rw [List.flatten_cons, List.take_append_eq_append_take,
            Nat.sub_eq_zero_of_le hfb, List.take_zero, List.append_nil]
        dsimp only
        rw [htk, readInt32LE_take4]
      next hfb =>
        refine ⟨?_, ?_, ?_⟩
        · dsimp only
          rw [hspec.1]
        · dsimp only
          rw [hspec.2.2]
          omega
        · dsimp only
          rw [List.flatten_cons, hspec.1, hspec.2.1]
          exact List.take_append_drop 4 (firstBuffer :: rest).flatten
  · intro h4
    unfold BufferPool.getInt32
    rw [if_pos h4]

theorem c7_getInt32_peek_frame_witness :
    ((⟨[[1], [2], [3, 4, 5]], 5⟩ : BufferPool).wf ∧
        4 ≤ (⟨[[1], [2], [3, 4, 5]], 5⟩ : BufferPool).totalByteLength) ∧
      ((⟨[[1], [2], [3, 4, 5]], 5⟩ : BufferPool).getInt32.1 =
          some (readInt32LE (([[1], [2], [3, 4, 5]] : List Buf).flatten.take 4)) ∧
        (⟨[[1], [2], [3, 4, 5]], 5⟩ : BufferPool).getInt32.2.totalByteLength = 5 ∧
        (⟨[[1], [2], [3, 4, 5]], 5⟩ : BufferPool).getInt32.2.buffers.flatten =
          ([[1], [2], [3, 4, 5]] : List Buf).flatten) :=
  ⟨⟨rfl, by decide⟩,
    (c7_getInt32_peek_frame ⟨[[1], [2], [3, 4, 5]], 5⟩ rfl).1 (by decide)⟩

/-- Claim C8: for every transition table and every target whose current state
has an entry in the table, requesting a next state not in that entry's legal
set raises an invariant-violation error naming both states and the legal set
and leaves the target's state unchanged; requesting a legal next state emits a
`stateChanged` notification carrying `(old, new)` and commits the new state. -/
theorem c8_state_guard (stateTable : StateTable) (target : ObjectWithState)
    (newState : String) (legalStates : List String)
    (h : lookupTable stateTable target.state = some legalStates) :
    (newState ∉ legalStates →
      stateTransition stateTable target newState =
        (target, some ⟨target.state, newState, legalStates⟩)) ∧
    (newState ∈ legalStates →
      stateTransition stateTable target newState =
        ({ state := newState,
           stateChangedEvents := target.stateChangedEvents ++ [(target.state, newState)] },
          none)) := by
  constructor
  · intro hmem
    have hc : legalStates.contains newState = false := by
      simpa using hmem
    unfold stateTransition
    rw [h]
    dsimp only
    rw [hc]
    simp
  · intro hmem
    have hc : legalStates.contains newState = true := by
      simpa using hmem
    unfold stateTransition
    rw [h]
    dsimp only
    rw [hc]
    simp

theorem c8_state_guard_witness :
    (lookupTable [("A", ["B"]), ("B", ["A", "C"])] "A" = some ["B"]) ∧
      (("C" ∉ ["B"] →
        stateTransition [("A", ["B"]), ("B", ["A", "C"])] ⟨"A", []⟩ "C" =
          (⟨"A", []⟩, some ⟨"A", "C", ["B"]⟩)) ∧
      ("B" ∈ ["B"] →
        stateTransition [("A", ["B"]), ("B", ["A", "C"])] ⟨"A", []⟩ "B" =
          (⟨"B", [("A", "B")]⟩, none))) :=
  ⟨by decide,
    ⟨(c8_state_guard [("A", ["B"]), ("B", ["A", "C"])] ⟨"A", []⟩ "C" ["B"] (by decide)).1,
     (c8_state_guard [("A", ["B"]), ("B", ["A", "C"])] ⟨"A", []⟩ "B" ["B"] (by decide)).2⟩⟩

/-- Claim C10: for every transition table and every target whose current state
does not appear as a key in the table, the guard permits a transition to any
requested state without error: it emits the `stateChanged` notification and
commits the new state.  (Rejection occurs only when the current state has an
entry and the requested state is outside that entry's set, which is the
content of `c8_state_guard`.) -/
theorem c10_state_guard_missing_entry (stateTable : StateTable)
    (target : ObjectWithState) (newState : String)
    (h : lookupTable stateTable target.state = none) :
    stateTransition stateTable target newState =
      ({ state := newState,
         stateChangedEvents := target.stateChangedEvents ++ [(target.state, newState)] },
        none) := by
  unfold stateTransition
  rw [h]

theorem c10_state_guard_missing_entry_witness :
    (lookupTable [("A", ["B"])] "Z" = none) ∧
      stateTransition [("A", ["B"])] ⟨"Z", []⟩ "Q" = (⟨"Q", [("Z", "Q")]⟩, none) :=
  ⟨by decide, c10_state_guard_missing_entry [("A", ["B"])] ⟨"Z", []⟩ "Q" (by decide)⟩

/-- Claim C9: `HostAddress` parsing canonicalizes equivalent textual forms:
`"Example.COM:27017"` and `"example.com"` produce equal instances (lower-cased
host `"example.com"`, port 27017); a literal port of zero
(`"host:0"`) fails with a parse error; `"/tmp/mongo.sock"` produces a
socket-path instance with host and port absent. -/
theorem c9_hostaddress_normalization :
    hostAddress "Example.COM:27017" =
        .ok ⟨some "example.com", some 27017, none, false⟩ ∧
      hostAddress "example.com" = hostAddress "Example.COM:27017" ∧
      hostAddress "host:0" = .error (.parseError "Invalid port (zero) with hostname") ∧
      hostAddress "/tmp/mongo.sock" = .ok ⟨none, none, some "/tmp/mongo.sock", false⟩ := by
  decide

/-- Claim C1 (code bug): in the run `c1Input` the first invocation fails with
a retry-eligible error and the single re-invocation succeeds (returning 42),
yet the pipeline raises the original error instead of returning the second
attempt's result: after the successful inner `await next()` the code falls
through to the trailing `throw operationError` (there is no return), so the
caller observes the first failure. -/
theorem c1_successful_retry_still_raises :
    c1Input.attempt 0 = .error c1Err ∧ c1Input.attempt 1 = .ok 42 ∧
      (withRetryability c1Input).attempts = 2 ∧
      (withRetryability c1Input).result = .error (.opError c1Err) :=
  ⟨rfl, rfl, rfl, rfl⟩

/-- Claim C5: for every pipeline run, regardless of the kinds of errors
raised, the operation is invoked at most twice: one initial attempt plus at
most one retry; a third attempt never occurs. -/
theorem c5_at_most_two_attempts (inp : RetryInput) :
    (withRetryability inp).attempts ≤ 2 := by
  unfold withRetryability
  repeat' split
  all_goals simp only [apply_ite RetryOutput.attempts]
  all_goals try split_ifs
  all_goals simp

/-- Claim C2: for every execution in which both the first attempt and the
single re-invocation fail (the hypotheses characterize exactly the runs that
reach the re-invocation: session present, RETRYABLE aspect, retry
eligibility, a recognized first error passing the MMAPv1 and marker filters,
and a successful re-selection of a compatible server), if the second failure
carries the no-writes-performed error label the pipeline surfaces the
original (first) failure to the caller unchanged; otherwise it surfaces the
second failure. -/
theorem c2_no_writes_performed_precedence (inp : RetryInput) (s : Session)
    (e1 e2 : MErr) (srv : Server)
    (htop : inp.topologyPresent = true)
    (hsess : inp.session = some s)
    (hretryable : inp.operation.hasAspect .RETRYABLE = true)
    (ha0 : inp.attempt 0 = .error e1)
    (ha1 : inp.attempt 1 = .error e2)
    (hwillRetry : ((inp.operation.hasAspect .READ_OPERATION &&
        (inp.retryReads && !inp.inTransaction && inp.operation.canRetryRead)) ||
      (inp.operation.hasAspect .WRITE_OPERATION &&
        (inp.retryWrites && !inp.inTransaction && supportsRetryableWrites inp.server &&
          inp.operation.canRetryWrite))) = true)
    (hmongo : e1.isMongoError = true)
    (hmmap : (inp.operation.hasAspect .WRITE_OPERATION &&
        (e1.code == some MMAPv1_RETRY_WRITES_ERROR_CODE)) = false)
    (hwfilter : (inp.operation.hasAspect .WRITE_OPERATION && !isRetryableWriteError e1) = false)
    (hrfilter : (inp.operation.hasAspect .READ_OPERATION && !isRetryableReadError e1) = false)
    (hresel : inp.reselect = .ok srv)
    (hsrv : (inp.operation.hasAspect .WRITE_OPERATION && !supportsRetryableWrites (some srv)) =
      false) :
    (withRetryability inp).result =
      .error (.opError (if e2.isMongoError && e2.hasErrorLabel NoWritesPerformedLabel
        then e1 else e2)) := by
  cases hL : e2.isMongoError && e2.hasErrorLabel NoWritesPerformedLabel with
  | false =>
    simp [withRetryability, htop, hsess, hretryable, ha0, ha1, hwillRetry, hmongo,
      hmmap, hwfilter, hrfilter, hresel, hsrv, hL]
  | true =>
    simp [withRetryability, htop, hsess, hretryable, ha0, ha1, hwillRetry, hmongo,
      hmmap, hwfilter, hrfilter, hresel, hsrv, hL]

theorem c2_no_writes_performed_precedence_witness :
    (c2Input.attempt 0 = .error c2FirstErr ∧ c2Input.attempt 1 = .error c2SecondErr ∧
        c2SecondErr.hasErrorLabel NoWritesPerformedLabel = true) ∧
      (withRetryability c2Input).result = .error (.opError c2FirstErr) :=
  ⟨⟨rfl, rfl, rfl⟩,
    c2_no_writes_performed_precedence c2Input (startSession 0) c2FirstErr c2SecondErr rsServer
      rfl rfl rfl rfl rfl (by decide) rfl (by decide) (by decide) (by decide) rfl (by decide)⟩

set_option maxHeartbeats 1000000 in
/-- Claim C3: for every retryable write operation executed with a session for
which write-retry eligibility holds, the session's transaction number is
advanced exactly once per logical `executeOperation` call — before the first
attempt (together with setting the `willRetryWrite` option) — and is not
advanced again when a retry occurs: whatever the attempt outcomes, the final
session carries `txnNumber + 1`. -/
theorem c3_txn_number_advanced_once (inp : RetryInput) (s : Session)
    (htop : inp.topologyPresent = true)
    (hsess : inp.session = some s)
    (hretryable : inp.operation.hasAspect .RETRYABLE = true)
    (hwrite : inp.operation.hasAspect .WRITE_OPERATION = true)
    (hwrw : (inp.retryWrites && !inp.inTransaction && supportsRetryableWrites inp.server &&
        inp.operation.canRetryWrite) = true) :
    ((withRetryability inp).session).map Session.txnNumber = some (s.txnNumber + 1) ∧
      (withRetryability inp).willRetryWriteOptionSet = true := by
  rcases h0 : inp.attempt 0 with e | r
  · rcases hre : inp.reselect with se | srv <;>
      rcases h1 : inp.attempt 1 with e2 | r2 <;>
      constructor <;>
      simp only [withRetryability, htop, hsess, hretryable, hwrite, hwrw, h0, hre, h1,
        Bool.not_true, Bool.false_eq_true, Bool.true_and, Bool.and_true, Bool.and_self,
        Bool.or_true, Bool.true_or, eq_self_iff_true, if_true, if_false, Option.map_some,
        ite_self, Session.unpin, Session.incrementTransactionNumber,
        apply_ite RetryOutput.session, apply_ite RetryOutput.willRetryWriteOptionSet,
        apply_ite (Option.map Session.txnNumber)] <;>
      simp [apply_ite Session.txnNumber]
  · constructor <;>
      simp only [withRetryability, htop, hsess, hretryable, hwrite, hwrw, h0,
        Bool.not_true, Bool.false_eq_true, Bool.true_and, Bool.and_true, Bool.and_self,
        Bool.or_true, Bool.true_or, eq_self_iff_true, if_true, if_false, Option.map_some,
        ite_self, Session.unpin, Session.incrementTransactionNumber,
        apply_ite RetryOutput.session, apply_ite RetryOutput.willRetryWriteOptionSet,
        apply_ite (Option.map Session.txnNumber)] <;>
      simp [apply_ite Session.txnNumber]

theorem c3_txn_number_advanced_once_witness :
    (c3Input.session = some (startSession 5) ∧
        (c3Input.retryWrites && !c3Input.inTransaction &&
          supportsRetryableWrites c3Input.server && c3Input.operation.canRetryWrite) = true) ∧
      (((withRetryability c3Input).session).map Session.txnNumber =
          some ((startSession 5).txnNumber + 1) ∧
        (withRetryability c3Input).willRetryWriteOptionSet = true) :=
  ⟨⟨rfl, by decide⟩,
    c3_txn_number_advanced_once c3Input (startSession 5) rfl rfl rfl rfl (by decide)⟩

/-- Claim C4: for every pipeline run, a session that the pipeline itself
implicitly created (its ownership token matches the run's token) is ended
after the operation completes, both on success and on failure of the inner
stages, with any error from ending it suppressed (the run's outcome is
exactly the inner outcome, whatever `endSessionFails` is); a caller-supplied
explicit session — indeed any session handed in through the operation — is
never ended by the pipeline. -/
theorem c4_implicit_session_ended (inp : SessionInput) :
    ((inp.shouldCheckForSessionSupport = true → inp.supportCheckSelect = .ok ()) →
      inp.hasSessionSupport = true → inp.operationSession = none →
      withSession inp = ⟨inp.inner, true⟩) ∧
    (∀ s, inp.operationSession = some s → (withSession inp).sessionEnded = false) := by
  constructor
  · intro hcheck hsupp hnone
    unfold withSession
    rcases hc : inp.shouldCheckForSessionSupport with _ | _
    · simp only [hc, Bool.false_eq_true, if_false, hsupp, hnone, if_true, withSessionRun,
        startSession, Session.unpin]
      simp
    · simp only [hc, eq_self_iff_true, if_true, hcheck hc, hsupp, hnone, withSessionRun,
        startSession, Session.unpin]
      simp
  · intro s hs
    unfold withSession
    rcases hsel : (if inp.shouldCheckForSessionSupport then inp.supportCheckSelect
      else Except.ok ()) with e | u
    · simp
    · rcases hsupp : inp.hasSessionSupport with _ | _
      · simp only [hs, Bool.false_eq_true, if_false]
        split
        · simp
        · unfold withSessionRun
          repeat' split
          all_goals simp [apply_ite SessionOutput.sessionEnded]
      · simp only [hs, if_true]
        split
        · simp
        · split
          · simp
          · unfold withSessionRun
            repeat' split
            all_goals simp [apply_ite SessionOutput.sessionEnded]

theorem c4_implicit_session_ended_witness :
    (c4ImplicitInput.operationSession = none ∧
        c4ExplicitInput.operationSession = some c4ExplicitSession) ∧
      (withSession c4ImplicitInput = ⟨.ok 11, true⟩ ∧
        (withSession c4ExplicitInput).sessionEnded = false) :=
  ⟨⟨rfl, rfl⟩,
    ⟨(c4_implicit_session_ended c4ImplicitInput).1 (by decide) rfl rfl,
     (c4_implicit_session_ended c4ExplicitInput).2 c4ExplicitSession rfl⟩⟩
